import Mathlib

/-!
Verification of the position lifecycle and exit-decision engine of a
webhook trading service (models.py, position_manager.py, main.py).

Prices and sizes are modelled as rational numbers, timestamps as natural
numbers.  The Python dict holding the position set is modelled as an
insertion-ordered association list with dict semantics: assignment
replaces in place or appends, pop removes by key.  Side effects are made
explicit: the manager state carries the persisted store content and a
count of order-gateway close calls, and fallible operations return
Except values.
-/

namespace Webhook

/-- models.py ExitReason enum. -/
inductive ExitReason
  | STOP_LOSS
  | TAKE_PROFIT
  | TRAILING_STOP
  | MANUAL
  | SIGNAL
deriving Repr, DecidableEq

/-- models.py PositionStatus enum. -/
inductive PositionStatus
  | ACTIVE
  | TRAILING
  | CLOSED
deriving Repr, DecidableEq

/-- models.py Action enum. -/
inductive Action
  | LONG
  | SHORT
  | EXIT_LONG
  | EXIT_SHORT
  | CLOSE_ALL
deriving Repr, DecidableEq

/-- models.py Position dataclass.  The side field is a string, exactly as
in the source, which branches on equality with "LONG". -/
structure Position where
  position_id : String
  product_id : String
  side : String
  size : ℚ
  entry_price : ℚ
  current_price : ℚ := 0
  stop_loss_price : ℚ := 0
  take_profit_price : ℚ := 0
  trailing_activation_price : ℚ := 0
  trailing_distance_pct : ℚ := 3/4
  status : PositionStatus := .ACTIVE
  trailing_active : Bool := false
  trailing_stop_price : ℚ := 0
  opened_at : ℕ := 0
  closed_at : Option ℕ := none
  exit_reason : Option ExitReason := none
  pnl : ℚ := 0
  pnl_pct : ℚ := 0
deriving Repr, DecidableEq

/-- models.py Position.update_pnl. -/
def Position.update_pnl (p : Position) : Position :=
  if p.side = "LONG" then
    { p with pnl := (p.current_price - p.entry_price) * p.size,
             pnl_pct := ((p.current_price - p.entry_price) / p.entry_price) * 100 }
  else
    { p with pnl := (p.entry_price - p.current_price) * p.size,
             pnl_pct := ((p.entry_price - p.current_price) / p.entry_price) * 100 }

/-- models.py Position.should_stop_loss. -/
def Position.should_stop_loss (p : Position) : Bool :=
  if p.side = "LONG" then
    decide (p.current_price ≤ p.stop_loss_price)
  else
    decide (p.current_price ≥ p.stop_loss_price)

/-- models.py Position.should_take_profit. -/
def Position.should_take_profit (p : Position) : Bool :=
  if p.side = "LONG" then
    decide (p.current_price ≥ p.take_profit_price)
  else
    decide (p.current_price ≤ p.take_profit_price)

/-- models.py Position.should_activate_trailing. -/
def Position.should_activate_trailing (p : Position) : Bool :=
  if p.trailing_active then
    false
  else if p.side = "LONG" then
    decide (p.current_price ≥ p.trailing_activation_price)
  else
    decide (p.current_price ≤ p.trailing_activation_price)

/-- models.py Position.update_trailing_stop, with the new_stop local
inlined.  Note that the SHORT branch of the source also replaces the stored stop
when it is exactly zero. -/
def Position.update_trailing_stop (p : Position) : Position :=
  if p.trailing_active = false then
    p
  else if p.side = "LONG" then
    if p.current_price * (1 - p.trailing_distance_pct / 100) > p.trailing_stop_price then
      { p with trailing_stop_price := p.current_price * (1 - p.trailing_distance_pct / 100) }
    else p
  else
    if p.current_price * (1 + p.trailing_distance_pct / 100) < p.trailing_stop_price ∨
        p.trailing_stop_price = 0 then
      { p with trailing_stop_price := p.current_price * (1 + p.trailing_distance_pct / 100) }
    else p

/-- models.py Position.should_trailing_stop. -/
def Position.should_trailing_stop (p : Position) : Bool :=
  if p.trailing_active = false then
    false
  else if p.side = "LONG" then
    decide (p.current_price ≤ p.trailing_stop_price)
  else
    decide (p.current_price ≥ p.trailing_stop_price)

/-! ## Position set: Python dict modelled as insertion-ordered association list -/

/-- The position set: dict mapping position_id to Position, in insertion
order. -/
abbrev PositionMap := List (String × Position)

/-- Python dict lookup d.get(k): first (and only) entry with this key. -/
def findPos (pid : String) : PositionMap → Option Position
  | [] => none
  | (k, v) :: rest => if k = pid then some v else findPos pid rest

/-- Python dict assignment d[k] = v: replaces in place if the key is
present, otherwise appends. -/
def dictInsert (m : PositionMap) (pid : String) (p : Position) : PositionMap :=
  match m with
  | [] => [(pid, p)]
  | (k, v) :: rest =>
    if k = pid then (k, p) :: rest else (k, v) :: dictInsert rest pid p

/-- Python dict d.pop(k, None): drops the entry with this key. -/
def dictErase (m : PositionMap) (pid : String) : PositionMap :=
  m.filter (fun kv => kv.1 ≠ pid)

/-! ## Persistence: position_manager.py _save_positions / _load_positions.

The JSON record written per position.  Exactly the fields serialized by
_save_positions: note that closed_at and exit_reason are NOT among them.
The status enum is serialized via its string value; timestamps are
serialized via isoformat, modelled as the identity on natural numbers. -/

/-- One serialized position record, with exactly the keys written by
_save_positions. -/
structure PersistedRecord where
  position_id : String
  product_id : String
  side : String
  size : ℚ
  entry_price : ℚ
  current_price : ℚ
  stop_loss_price : ℚ
  take_profit_price : ℚ
  trailing_activation_price : ℚ
  trailing_distance_pct : ℚ
  status : String
  trailing_active : Bool
  trailing_stop_price : ℚ
  opened_at : ℕ
  pnl : ℚ
  pnl_pct : ℚ
deriving Repr, DecidableEq

/-- .value of the status enum, as serialized. -/
def PositionStatus.value : PositionStatus → String
  | .ACTIVE => "ACTIVE"
  | .TRAILING => "TRAILING"
  | .CLOSED => "CLOSED"

/-- PositionStatus(s) enum construction on load; none models the
ValueError raised on an unknown string. -/
def parseStatus (s : String) : Option PositionStatus :=
  if s = "ACTIVE" then some .ACTIVE
  else if s = "TRAILING" then some .TRAILING
  else if s = "CLOSED" then some .CLOSED
  else none

/-- The record _save_positions writes for one position. -/
def serializePos (p : Position) : PersistedRecord :=
  { position_id := p.position_id
    product_id := p.product_id
    side := p.side
    size := p.size
    entry_price := p.entry_price
    current_price := p.current_price
    stop_loss_price := p.stop_loss_price
    take_profit_price := p.take_profit_price
    trailing_activation_price := p.trailing_activation_price
    trailing_distance_pct := p.trailing_distance_pct
    status := p.status.value
    trailing_active := p.trailing_active
    trailing_stop_price := p.trailing_stop_price
    opened_at := p.opened_at
    pnl := p.pnl
    pnl_pct := p.pnl_pct }

/-- The Position(...) construction _load_positions performs for one
record; closed_at and exit_reason are not read back and take their
dataclass defaults (none).  Fails (none) when the status string is not a
valid enum value. -/
def parseRecord (r : PersistedRecord) : Option Position :=
  match parseStatus r.status with
  | none => none
  | some s =>
    some
      { position_id := r.position_id
        product_id := r.product_id
        side := r.side
        size := r.size
        entry_price := r.entry_price
        current_price := r.current_price
        stop_loss_price := r.stop_loss_price
        take_profit_price := r.take_profit_price
        trailing_activation_price := r.trailing_activation_price
        trailing_distance_pct := r.trailing_distance_pct
        status := s
        trailing_active := r.trailing_active
        trailing_stop_price := r.trailing_stop_price
        opened_at := r.opened_at
        closed_at := none
        exit_reason := none
        pnl := r.pnl
        pnl_pct := r.pnl_pct }

/-- The serialized form of a whole position set, as written to the
positions file. -/
def serializeMap (m : PositionMap) : List (String × PersistedRecord) :=
  m.map (fun kv => (kv.1, serializePos kv.2))

/-- The record-insertion loop of _load_positions: records are processed
in file order; the first record that fails to parse raises, aborting the
loop with the positions inserted so far retained. -/
def loadRecords (acc : PositionMap) : List (String × PersistedRecord) → PositionMap
  | [] => acc
  | (pid, r) :: rest =>
    match parseRecord r with
    | none => acc
    | some p => loadRecords (dictInsert acc pid p) rest

/-- position_manager.py _load_positions, run at startup on the initially
empty position set.  The argument models the outcome of opening and
JSON-parsing the positions file: error covers FileNotFoundError and
malformed JSON (both caught), ok carries the parsed records in file
order.  A record-level failure inside the loop is also caught; in every
case the function returns instead of crashing the process. -/
def load_positions (raw : Except String (List (String × PersistedRecord))) : PositionMap :=
  match raw with
  | .error _ => []
  | .ok data => loadRecords [] data

/-! ## Position Manager state and operations (position_manager.py) -/

/-- The manager state: the position set, the persisted store content
(none before the first save), and a count of order-gateway close calls
(to make exchange interaction observable). -/
structure ManagerState where
  positions : PositionMap
  store : Option (List (String × PersistedRecord)) := none
  gatewayCalls : ℕ := 0
deriving Repr, DecidableEq

/-- position_manager.py _save_positions: rewrites the whole store from
the current position set. -/
def save_positions (st : ManagerState) : ManagerState :=
  { st with store := some (serializeMap st.positions) }

/-- position_manager.py add_position: dict assignment followed by a
save.  Always succeeds; an existing entry under the same identifier is
silently replaced. -/
def add_position (st : ManagerState) (p : Position) : ManagerState :=
  save_positions { st with positions := dictInsert st.positions p.position_id p }

/-- position_manager.py remove_position: pops by identifier; saves only
when something was removed. -/
def remove_position (st : ManagerState) (pid : String) : Option Position × ManagerState :=
  match findPos pid st.positions with
  | none => (none, st)
  | some p => (some p, save_positions { st with positions := dictErase st.positions pid })

/-- In-place mutation of a Position object aliased inside the dict: the
entry under its identifier (if any) now shows the new field values. -/
def writeBack (st : ManagerState) (p : Position) : ManagerState :=
  { st with positions := st.positions.map (fun kv => if kv.1 = p.position_id then (kv.1, p) else kv) }

/-- position_manager.py _close_position.  Parameters: et is
Config.ENABLE_TRADING; g is whether the gateway close call succeeds
(live mode only); now is datetime.utcnow().  Returns the final state of
the closed Position object alongside the manager state; the error case
models the exception propagated after logging, with the position left in
the set. -/
def close_position (et g : Bool) (now : ℕ) (st : ManagerState) (p : Position)
    (reason : ExitReason) : Except String Position × ManagerState :=
  if et = false then
    let p1 := { p with status := PositionStatus.CLOSED, exit_reason := some reason,
                       closed_at := some now }
    (Except.ok p1, (remove_position (writeBack st p1) p.position_id).2)
  else if g then
    let st1 := { st with gatewayCalls := st.gatewayCalls + 1 }
    let p1 := { p with status := PositionStatus.CLOSED, exit_reason := some reason,
                       closed_at := some now }
    (Except.ok p1, (remove_position (writeBack st1 p1) p.position_id).2)
  else
    (Except.error "close order failed", { st with gatewayCalls := st.gatewayCalls + 1 })

/-- position_manager.py close_position_manual: not-found is reported as
false with no state change; otherwise the close runs with reason MANUAL
and true is returned (a close failure propagates as an error). -/
def close_position_manual (et g : Bool) (now : ℕ) (st : ManagerState) (pid : String) :
    Except String Bool × ManagerState :=
  match findPos pid st.positions with
  | none => (Except.ok false, st)
  | some p =>
    match close_position et g now st p ExitReason.MANUAL with
    | (Except.ok _, st1) => (Except.ok true, st1)
    | (Except.error e, st1) => (Except.error e, st1)

/-- The trailing activation step inlined in _check_position lines
119-130: arm trailing, set status TRAILING, seed the trailing stop at
the current price offset by the trailing distance. -/
def activate_trailing (p : Position) : Position :=
  { p with trailing_active := true, status := PositionStatus.TRAILING,
           trailing_stop_price :=
             if p.side = "LONG" then
               p.current_price * (1 - p.trailing_distance_pct / 100)
             else
               p.current_price * (1 + p.trailing_distance_pct / 100) }

/-- The exit arbitration of _check_position lines 140-156: stop-loss,
then trailing-stop, then take-profit, first match wins. -/
def exitDecision (p : Position) : Option ExitReason :=
  if p.should_stop_loss then some ExitReason.STOP_LOSS
  else if p.should_trailing_stop then some ExitReason.TRAILING_STOP
  else if p.should_take_profit then some ExitReason.TAKE_PROFIT
  else none

/-- position_manager.py _check_position: one monitoring-cycle check of
one position.  Updates P&L, arms the trailing stop when due (persisting),
ratchets an armed trailing stop (persisting only on movement), then
resolves the exit decision and executes the close when a trigger fired.
The returned option is the exit reason chosen for this cycle (an
exception from the close is caught, so the state left by close_position
is kept either way). -/
def check_position (et g : Bool) (now : ℕ) (st : ManagerState) (p : Position) :
    ManagerState × Option ExitReason :=
  let p1 := p.update_pnl
  let st1 := writeBack st p1
  let p2 :=
    if p1.trailing_active = false ∧ p1.should_activate_trailing then activate_trailing p1
    else p1
  let st2 :=
    if p1.trailing_active = false ∧ p1.should_activate_trailing then
      save_positions (writeBack st1 p2)
    else st1
  let p3 := if p2.trailing_active then p2.update_trailing_stop else p2
  let st3 :=
    if p2.trailing_active then
      if p3.trailing_stop_price ≠ p2.trailing_stop_price then save_positions (writeBack st2 p3)
      else writeBack st2 p3
    else st2
  match exitDecision p3 with
  | some r => ((close_position et g now st3 p3 r).2, some r)
  | none => (st3, none)

/-- The position value the trailing phase of one _check_position cycle
produces (P&L update, then possible activation, then possible ratchet);
the returned reason of check_position is the exit decision on it. -/
def trailingPhase (p : Position) : Position :=
  let p1 := p.update_pnl
  let p2 :=
    if p1.trailing_active = false ∧ p1.should_activate_trailing then activate_trailing p1
    else p1
  if p2.trailing_active then p2.update_trailing_stop else p2

/-! ## Webhook endpoint and handlers (main.py) -/

/-- models.py TradingViewAlert, restricted to the fields the handlers
read (percentage-fallback path; defaults from the pydantic model). -/
structure TradingViewAlert where
  action : Action
  symbol : String
  position_size_usd : ℚ := 100
  stop_loss_pct : ℚ := 3/2
  take_profit_pct : ℚ := 3/2
  trailing_activation_pct : ℚ := 4/5
  trailing_distance_pct : ℚ := 3/4
deriving Repr, DecidableEq

/-- The environment an entry handler draws on: whether the gateway
market order succeeds, the fill price reported by the gateway, and the
freshly generated uuid for the new position. -/
structure EntryEnv where
  orderOk : Bool
  fillPrice : ℚ
  newId : String
deriving Repr, DecidableEq

/-- The structured JSON body returned by the endpoint (success flag and
message; remaining fields omitted). -/
structure WebhookResponse where
  success : Bool
  message : String
deriving Repr, DecidableEq

/-- main.py handle_long_entry: capacity check, one-position-per-product
check, market BUY, fill-price query, derived stop/target/activation
levels, position registration.  Errors propagate with no state change
made first. -/
def handle_long_entry (env : EntryEnv) (maxPos : ℕ) (now : ℕ)
    (alert : TradingViewAlert) (st : ManagerState) :
    Except String WebhookResponse × ManagerState :=
  if st.positions.length ≥ maxPos then
    (Except.error "Max positions reached", st)
  else if st.positions.any (fun kv => kv.2.product_id = alert.symbol) then
    (Except.error "Already have position", st)
  else if env.orderOk = false then
    (Except.error "order placement failed", st)
  else
    let fill := env.fillPrice
    let p : Position :=
      { position_id := env.newId
        product_id := alert.symbol
        side := "LONG"
        size := alert.position_size_usd / fill
        entry_price := fill
        current_price := fill
        stop_loss_price := fill * (1 - alert.stop_loss_pct / 100)
        take_profit_price := fill * (1 + alert.take_profit_pct / 100)
        trailing_activation_price := fill * (1 + alert.trailing_activation_pct / 100)
        trailing_distance_pct := alert.trailing_distance_pct
        status := PositionStatus.ACTIVE
        opened_at := now }
    (Except.ok { success := true, message := "LONG position opened" }, add_position st p)

/-- main.py handle_short_entry: as handle_long_entry with the price
offsets inverted and a market SELL. -/
def handle_short_entry (env : EntryEnv) (maxPos : ℕ) (now : ℕ)
    (alert : TradingViewAlert) (st : ManagerState) :
    Except String WebhookResponse × ManagerState :=
  if st.positions.length ≥ maxPos then
    (Except.error "Max positions reached", st)
  else if st.positions.any (fun kv => kv.2.product_id = alert.symbol) then
    (Except.error "Already have position", st)
  else if env.orderOk = false then
    (Except.error "order placement failed", st)
  else
    let fill := env.fillPrice
    let p : Position :=
      { position_id := env.newId
        product_id := alert.symbol
        side := "SHORT"
        size := alert.position_size_usd / fill
        entry_price := fill
        current_price := fill
        stop_loss_price := fill * (1 + alert.stop_loss_pct / 100)
        take_profit_price := fill * (1 - alert.take_profit_pct / 100)
        trailing_activation_price := fill * (1 - alert.trailing_activation_pct / 100)
        trailing_distance_pct := alert.trailing_distance_pct
        status := PositionStatus.ACTIVE
        opened_at := now }
    (Except.ok { success := true, message := "SHORT position opened" }, add_position st p)

/-- main.py handle_exit: finds the first open position matching the
alert symbol and the requested side; no match is a non-error response
with success false; a match is manually closed. -/
def handle_exit (et g : Bool) (now : ℕ) (alert : TradingViewAlert) (side : String)
    (st : ManagerState) : Except String WebhookResponse × ManagerState :=
  match st.positions.find? (fun kv => kv.2.product_id = alert.symbol ∧ kv.2.side = side) with
  | none =>
    (Except.ok { success := false, message := "No position found" }, st)
  | some kv =>
    match close_position_manual et g now st kv.2.position_id with
    | (Except.ok _, st1) =>
      (Except.ok { success := true, message := "position closed" }, st1)
    | (Except.error e, st1) => (Except.error e, st1)

/-- The loop of position_manager.py close_all_positions over a snapshot
of the identifiers, as driven by main.py handle_close_all; a close
failure propagates out of the loop. -/
def close_all_go (et g : Bool) (now : ℕ) :
    List String → ManagerState → Except String ℕ × ManagerState
  | [], st => (Except.ok 0, st)
  | pid :: rest, st =>
    match close_position_manual et g now st pid with
    | (Except.ok _, st1) =>
      match close_all_go et g now rest st1 with
      | (Except.ok n, st2) => (Except.ok (n + 1), st2)
      | (Except.error e, st2) => (Except.error e, st2)
    | (Except.error e, st1) => (Except.error e, st1)

/-- main.py handle_close_all: manually closes every open position,
iterating over a snapshot of the current identifiers. -/
def handle_close_all (et g : Bool) (now : ℕ) (st : ManagerState) :
    Except String WebhookResponse × ManagerState :=
  match close_all_go et g now (st.positions.map Prod.fst) st with
  | (Except.ok _, st1) =>
    (Except.ok { success := true, message := "Closed positions" }, st1)
  | (Except.error e, st1) => (Except.error e, st1)

/-- main.py webhook endpoint: when Config.ENABLE_TRADING is false the
paper-mode success response is returned before any routing; otherwise
the alert action is routed to its handler. -/
def webhook (enableTrading : Bool) (env : EntryEnv) (g : Bool) (now : ℕ) (maxPos : ℕ)
    (alert : TradingViewAlert) (st : ManagerState) :
    Except String WebhookResponse × ManagerState :=
  if enableTrading = false then
    (Except.ok { success := true, message := "Paper trade mode - no real execution" }, st)
  else
    match alert.action with
    | Action.LONG => handle_long_entry env maxPos now alert st
    | Action.SHORT => handle_short_entry env maxPos now alert st
    | Action.EXIT_LONG => handle_exit enableTrading g now alert "LONG" st
    | Action.EXIT_SHORT => handle_exit enableTrading g now alert "SHORT" st
    | Action.CLOSE_ALL => handle_close_all enableTrading g now st

/-! ## Concrete instances used by witnesses and counterexamples -/

/-- A LONG position that has simultaneously breached its stop (75 ≤ 98)
and its target (75 ≥ 70), for the C1 witness. -/
def pC1 : Position :=
  { position_id := "c1", product_id := "BTC-USD", side := "LONG", size := 1,
    entry_price := 100, current_price := 75, stop_loss_price := 98,
    take_profit_price := 70, trailing_activation_price := 101,
    trailing_distance_pct := 1, opened_at := 0 }

/-- Manager state holding pC1, for the C1 witness. -/
def stC1 : ManagerState := { positions := [("c1", pC1)] }

/-- An armed LONG position, for the C2 witness. -/
def pC2w : Position :=
  { position_id := "c2", product_id := "BTC-USD", side := "LONG", size := 1,
    entry_price := 100, current_price := 102, stop_loss_price := 98,
    take_profit_price := 110, trailing_activation_price := 101,
    trailing_distance_pct := 1, status := PositionStatus.TRAILING,
    trailing_active := true, trailing_stop_price := 100, opened_at := 0 }

/-- An armed SHORT position whose stored trailing stop is the zero
sentinel, for the C2 counterexample. -/
def pC2ce : Position :=
  { position_id := "c2x", product_id := "ETH-USD", side := "SHORT", size := 1,
    entry_price := 100, current_price := 100, stop_loss_price := 102,
    take_profit_price := 90, trailing_activation_price := 99,
    trailing_distance_pct := 1, status := PositionStatus.TRAILING,
    trailing_active := true, trailing_stop_price := 0, opened_at := 0 }

/-- A position already registered under identifier id1, for the C3
counterexample. -/
def pC3a : Position :=
  { position_id := "id1", product_id := "BTC-USD", side := "LONG", size := 1,
    entry_price := 100, current_price := 100, stop_loss_price := 98,
    take_profit_price := 102, trailing_activation_price := 101,
    trailing_distance_pct := 1, opened_at := 0 }

/-- A different position reusing identifier id1, for the C3
counterexample. -/
def pC3b : Position :=
  { position_id := "id1", product_id := "ETH-USD", side := "SHORT", size := 2,
    entry_price := 200, current_price := 200, stop_loss_price := 204,
    take_profit_price := 196, trailing_activation_price := 198,
    trailing_distance_pct := 1, opened_at := 0 }

/-- Manager state already holding pC3a under id1. -/
def stC3 : ManagerState := { positions := [("id1", pC3a)] }

/-- A LONG position for the C5 witness. -/
def pC5L : Position :=
  { position_id := "c5l", product_id := "BTC-USD", side := "LONG", size := 1,
    entry_price := 100, current_price := 99, stop_loss_price := 98,
    take_profit_price := 101, trailing_activation_price := 101,
    trailing_distance_pct := 1, opened_at := 0 }

/-- A SHORT position for the C5 witness. -/
def pC5S : Position :=
  { position_id := "c5s", product_id := "ETH-USD", side := "SHORT", size := 1,
    entry_price := 100, current_price := 99, stop_loss_price := 102,
    take_profit_price := 95, trailing_activation_price := 99,
    trailing_distance_pct := 1, opened_at := 0 }

/-- A position registered under identifier q1, for the C7 witness. -/
def pC7 : Position :=
  { position_id := "q1", product_id := "BTC-USD", side := "LONG", size := 1,
    entry_price := 100, current_price := 100, stop_loss_price := 98,
    take_profit_price := 102, trailing_activation_price := 101,
    trailing_distance_pct := 1, opened_at := 0 }

/-- Manager state holding pC7, for the C7 witness. -/
def stC7 : ManagerState := { positions := [("q1", pC7)] }

/-- An open position (closed_at and exit_reason unset), first entry of
the C6 witness set. -/
def pC6a : Position :=
  { position_id := "a", product_id := "BTC-USD", side := "LONG", size := 1,
    entry_price := 100, current_price := 105, stop_loss_price := 98,
    take_profit_price := 110, trailing_activation_price := 101,
    trailing_distance_pct := 1, status := PositionStatus.TRAILING,
    trailing_active := true, trailing_stop_price := 104, opened_at := 3,
    pnl := 5, pnl_pct := 5 }

/-- An open SHORT position, second entry of the C6 witness set. -/
def pC6b : Position :=
  { position_id := "b", product_id := "ETH-USD", side := "SHORT", size := 2,
    entry_price := 50, current_price := 49, stop_loss_price := 51,
    take_profit_price := 45, trailing_activation_price := 48,
    trailing_distance_pct := 1, opened_at := 4, pnl := 2, pnl_pct := 2 }

/-- The two-entry position set for the C6 witness. -/
def mC6 : PositionMap := [("a", pC6a), ("b", pC6b)]

/-- A closed position carrying a close timestamp and an exit reason,
for the C6 counterexample. -/
def pC6ce : Position :=
  { position_id := "k", product_id := "BTC-USD", side := "LONG", size := 1,
    entry_price := 100, current_price := 99, stop_loss_price := 98,
    take_profit_price := 102, trailing_activation_price := 101,
    trailing_distance_pct := 1, status := PositionStatus.CLOSED,
    opened_at := 3, closed_at := some 7,
    exit_reason := some ExitReason.MANUAL, pnl := -1, pnl_pct := -1 }

/-- A well-formed position whose serialized record loads back, for the
C9 inputs. -/
def pC9good : Position :=
  { position_id := "a", product_id := "BTC-USD", side := "LONG", size := 1,
    entry_price := 100, current_price := 100, stop_loss_price := 98,
    take_profit_price := 102, trailing_activation_price := 101,
    trailing_distance_pct := 1, opened_at := 0 }

/-- A record whose status string is not a valid enum value, so its
parse raises, for the C9 inputs. -/
def recC9bad : PersistedRecord :=
  { serializePos pC9good with position_id := "b", status := "BOGUS" }

/-! ## Helper lemmas on the dict model -/

lemma findPos_dictInsert (m : PositionMap) (pid : String) (p : Position) :
    findPos pid (dictInsert m pid p) = some p := by
  induction m with
  | nil => simp [dictInsert, findPos]
  | cons kv rest ih =>
    by_cases h : kv.1 = pid
    · simp [dictInsert, findPos, h]
    · simpa [dictInsert, findPos, h] using ih

lemma findPos_dictErase (m : PositionMap) (pid : String) :
    findPos pid (dictErase m pid) = none := by
  induction m with
  | nil => simp [dictErase, findPos]
  | cons kv rest ih =>
    by_cases h : kv.1 = pid
    · simpa [dictErase, findPos, h] using ih
    · simpa [dictErase, findPos, h] using ih

lemma remove_position_not_found (st : ManagerState) (pid : String) :
    findPos pid ((remove_position st pid).2).positions = none := by
  cases h : findPos pid st.positions with
  | none => simp [remove_position, h]
  | some p => simp [remove_position, h, save_positions, findPos_dictErase]

lemma remove_position_gatewayCalls (st : ManagerState) (pid : String) :
    ((remove_position st pid).2).gatewayCalls = st.gatewayCalls := by
  cases h : findPos pid st.positions with
  | none => simp [remove_position, h]
  | some p => simp [remove_position, h, save_positions]

lemma remove_position_positions (st : ManagerState) (pid : String) :
    ((remove_position st pid).2).positions =
      if (findPos pid st.positions).isSome then dictErase st.positions pid
      else st.positions := by
  cases h : findPos pid st.positions with
  | none => simp [remove_position, h]
  | some p => simp [remove_position, h, save_positions]

lemma writeBack_positions (st : ManagerState) (p : Position) :
    (writeBack st p).positions =
      st.positions.map (fun kv => if kv.1 = p.position_id then (kv.1, p) else kv) := rfl

lemma findPos_map_write (l : PositionMap) (p : Position) (pid : String)
    (h : findPos pid l = none) :
    findPos pid (l.map (fun kv => if kv.1 = p.position_id then (kv.1, p) else kv)) = none := by
  induction l with
  | nil => simp [findPos]
  | cons kv rest ih =>
    obtain ⟨k, v⟩ := kv
    rw [List.map_cons]
    by_cases hk : k = pid
    · rw [findPos, if_pos hk] at h
      exact absurd h (by simp)
    · rw [findPos, if_neg hk] at h
      by_cases hw : k = p.position_id
      · rw [if_pos hw, findPos, if_neg hk]
        exact ih h
      · rw [if_neg hw, findPos, if_neg hk]
        exact ih h

lemma findPos_writeBack (st : ManagerState) (p : Position) (pid : String)
    (h : findPos pid st.positions = none) :
    findPos pid (writeBack st p).positions = none := by
  rw [writeBack_positions]
  exact findPos_map_write st.positions p pid h

/-! ## Field-preservation lemmas for the monitoring-cycle phases -/

lemma update_pnl_should_stop_loss (p : Position) :
    (p.update_pnl).should_stop_loss = p.should_stop_loss := by
  unfold Position.update_pnl
  split <;> simp [Position.should_stop_loss]

lemma activate_trailing_should_stop_loss (p : Position) :
    (activate_trailing p).should_stop_loss = p.should_stop_loss := by
  simp [activate_trailing, Position.should_stop_loss]

lemma update_trailing_stop_should_stop_loss (p : Position) :
    (p.update_trailing_stop).should_stop_loss = p.should_stop_loss := by
  unfold Position.update_trailing_stop
  split
  · rfl
  · split
    · split
      · simp [Position.should_stop_loss]
      · rfl
    · split
      · simp [Position.should_stop_loss]
      · rfl

lemma activate_trailing_active (p : Position) :
    (activate_trailing p).trailing_active = true := rfl

lemma trailingPhase_should_stop_loss (p : Position) :
    (trailingPhase p).should_stop_loss = p.should_stop_loss := by
  by_cases hA :
      (p.update_pnl).trailing_active = false ∧ (p.update_pnl).should_activate_trailing = true
  · simp [trailingPhase, hA, activate_trailing_active,
      update_trailing_stop_should_stop_loss, activate_trailing_should_stop_loss,
      update_pnl_should_stop_loss]
  · by_cases hT : (p.update_pnl).trailing_active = true
    · simp [trailingPhase, hA, hT, update_trailing_stop_should_stop_loss,
        update_pnl_should_stop_loss]
    · have hta : (p.update_pnl).trailing_active = false := by simpa using hT
      have hact : (p.update_pnl).should_activate_trailing = false := by
        by_contra hc
        exact hA ⟨hta, by simpa using hc⟩
      simp [trailingPhase, hta, hact, update_pnl_should_stop_loss]

lemma check_position_snd (et g : Bool) (now : ℕ) (st : ManagerState) (p : Position) :
    (check_position et g now st p).2 = exitDecision (trailingPhase p) := by
  cases hE : exitDecision (trailingPhase p) with
  | none =>
    simp only [trailingPhase] at hE
    simp only [check_position, hE]
  | some r =>
    simp only [trailingPhase] at hE
    simp only [check_position, hE]

/-! ## Persistence lemmas -/

lemma parseStatus_value (s : PositionStatus) : parseStatus s.value = some s := by
  cases s <;> rfl

lemma parse_serialize (p : Position) (h1 : p.closed_at = none) (h2 : p.exit_reason = none) :
    parseRecord (serializePos p) = some p := by
  simp only [serializePos, parseRecord, parseStatus_value]
  rw [← h1, ← h2]

lemma dictInsert_absent (m : PositionMap) (k : String) (v : Position)
    (h : findPos k m = none) : dictInsert m k v = m ++ [(k, v)] := by
  induction m with
  | nil => rfl
  | cons kv rest ih =>
    obtain ⟨k1, v1⟩ := kv
    rw [findPos] at h
    by_cases hk : k1 = k
    · rw [if_pos hk] at h
      exact absurd h (by simp)
    · rw [if_neg hk] at h
      simp [dictInsert, hk, ih h]

lemma findPos_append_right (k : String) (a b : PositionMap) (h : findPos k a = none) :
    findPos k (a ++ b) = findPos k b := by
  induction a with
  | nil => rfl
  | cons kv rest ih =>
    obtain ⟨k1, v1⟩ := kv
    rw [findPos] at h
    by_cases hk : k1 = k
    · rw [if_pos hk] at h
      exact absurd h (by simp)
    · rw [if_neg hk] at h
      simp [findPos, hk, ih h]

lemma loadRecords_serialize : ∀ (ps : PositionMap) (acc : PositionMap),
    (∀ kv ∈ ps, kv.2.closed_at = none ∧ kv.2.exit_reason = none) →
    (∀ kv ∈ ps, findPos kv.1 acc = none) →
    (ps.map Prod.fst).Nodup →
    loadRecords acc (serializeMap ps) = acc ++ ps := by
  intro ps
  induction ps with
  | nil =>
    intro acc _ _ _
    simp [serializeMap, loadRecords]
  | cons kv rest ih =>
    intro acc hgood hfresh hnodup
    obtain ⟨k, p⟩ := kv
    have hg := hgood (k, p) (by simp)
    rw [List.map_cons, List.nodup_cons] at hnodup
    have hnd := hnodup
    rw [show serializeMap ((k, p) :: rest) = (k, serializePos p) :: serializeMap rest from rfl]
    simp only [loadRecords, parse_serialize p hg.1 hg.2]
    rw [dictInsert_absent acc k p (hfresh (k, p) (by simp))]
    rw [ih (acc ++ [(k, p)]) (fun kv hm => hgood kv (List.mem_cons_of_mem _ hm)) ?hf hnd.2]
    · simp
    case hf =>
      intro kv hm
      rw [findPos_append_right kv.1 acc [(k, p)] (hfresh kv (List.mem_cons_of_mem _ hm))]
      have hkk : ¬k = kv.1 := by
        intro hEq
        have hmm : kv.1 ∈ List.map Prod.fst rest := List.mem_map_of_mem Prod.fst hm
        rw [← hEq] at hmm
        exact hnd.1 hmm
      simp [findPos, hkk]

lemma loadRecords_stops_at_bad (bad : String × PersistedRecord)
    (hbad : parseRecord bad.2 = none) :
    ∀ (pre rest : List (String × PersistedRecord)) (acc : PositionMap),
    loadRecords acc (pre ++ bad :: rest) = loadRecords acc pre := by
  intro pre
  induction pre with
  | nil =>
    intro rest acc
    obtain ⟨bk, br⟩ := bad
    simp only [List.nil_append, loadRecords]
    rw [hbad]
  | cons kv pre ih =>
    intro rest acc
    obtain ⟨k, r⟩ := kv
    cases hp : parseRecord r with
    | none => simp [loadRecords, hp]
    | some p => simp [loadRecords, hp, ih]

/-! ## Claim theorems -/

/-- Claim C5: should_stop_loss is true iff the current price has reached
the stop-loss level in the adverse direction (at or below for LONG, at or
above for SHORT), and should_take_profit is true iff the current price
has reached the take-profit level in the favorable direction (at or
above for LONG, at or below for SHORT). -/
theorem trigger_predicates_iff (p : Position) :
    (p.side = "LONG" →
      ((p.should_stop_loss = true ↔ p.current_price ≤ p.stop_loss_price) ∧
       (p.should_take_profit = true ↔ p.take_profit_price ≤ p.current_price))) ∧
    (p.side = "SHORT" →
      ((p.should_stop_loss = true ↔ p.stop_loss_price ≤ p.current_price) ∧
       (p.should_take_profit = true ↔ p.current_price ≤ p.take_profit_price))) := by
  constructor
  · intro h
    constructor <;> simp [Position.should_stop_loss, Position.should_take_profit, h, ge_iff_le]
  · intro h
    constructor <;> simp [Position.should_stop_loss, Position.should_take_profit, h, ge_iff_le]

/-- Witness for C5 at a concrete LONG and a concrete SHORT position. -/
theorem trigger_predicates_iff_witness :
    ((pC5L.should_stop_loss = true ↔ pC5L.current_price ≤ pC5L.stop_loss_price) ∧
     (pC5L.should_take_profit = true ↔ pC5L.take_profit_price ≤ pC5L.current_price)) ∧
    ((pC5S.should_stop_loss = true ↔ pC5S.stop_loss_price ≤ pC5S.current_price) ∧
     (pC5S.should_take_profit = true ↔ pC5S.current_price ≤ pC5S.take_profit_price)) :=
  ⟨(trigger_predicates_iff pC5L).1 rfl, (trigger_predicates_iff pC5S).2 rfl⟩

/-- Claim C2 (amended): once armed, the ratchet never decreases the
stored trailing-stop price for a LONG position; for a SHORT position it
never increases it provided the stored price is nonzero — when the
stored price is the zero sentinel, the SHORT branch seeds it with the
candidate, which can be an increase. -/
theorem update_trailing_stop_ratchet (p : Position) (h : p.trailing_active = true) :
    (p.side = "LONG" →
      p.trailing_stop_price ≤ (p.update_trailing_stop).trailing_stop_price) ∧
    (p.side = "SHORT" → p.trailing_stop_price ≠ 0 →
      (p.update_trailing_stop).trailing_stop_price ≤ p.trailing_stop_price) := by
  constructor
  · intro hs
    unfold Position.update_trailing_stop
    rw [if_neg (by simp [h]), if_pos hs]
    by_cases hgt :
        p.current_price * (1 - p.trailing_distance_pct / 100) > p.trailing_stop_price
    · rw [if_pos hgt]
      exact le_of_lt hgt
    · rw [if_neg hgt]
  · intro hs hne
    unfold Position.update_trailing_stop
    rw [if_neg (by simp [h]), if_neg (by simp [hs])]
    by_cases hc :
        p.current_price * (1 + p.trailing_distance_pct / 100) < p.trailing_stop_price ∨
          p.trailing_stop_price = 0
    · rw [if_pos hc]
      rcases hc with hlt | h0
      · exact le_of_lt hlt
      · exact absurd h0 hne
    · rw [if_neg hc]

/-- Witness for C2 at a concrete armed LONG position. -/
theorem update_trailing_stop_ratchet_witness :
    pC2w.trailing_stop_price ≤ (pC2w.update_trailing_stop).trailing_stop_price :=
  (update_trailing_stop_ratchet pC2w rfl).1 rfl

/-- Counterexample to C2 as stated: an armed SHORT position whose stored
trailing-stop price is 0 has it strictly increased by the update. -/
theorem update_trailing_stop_short_zero_counterexample :
    pC2ce.side = "SHORT" ∧ pC2ce.trailing_active = true ∧
    pC2ce.trailing_stop_price = 0 ∧
    pC2ce.trailing_stop_price < (pC2ce.update_trailing_stop).trailing_stop_price := by
  refine ⟨rfl, rfl, rfl, ?_⟩
  have hne : ¬("SHORT" : String) = "LONG" := by decide
  norm_num [pC2ce, Position.update_trailing_stop, hne]

/-- Claim C1: in one monitoring-cycle check, the exit decision resolves
competing triggers with stop-loss first: whenever both should_stop_loss
and should_take_profit hold on the checked position, the chosen exit
reason is STOP_LOSS, never TAKE_PROFIT. -/
theorem check_position_stop_loss_priority (et g : Bool) (now : ℕ) (st : ManagerState)
    (p : Position) (h1 : p.should_stop_loss = true) (_h2 : p.should_take_profit = true) :
    (check_position et g now st p).2 = some ExitReason.STOP_LOSS := by
  rw [check_position_snd]
  have hs : (trailingPhase p).should_stop_loss = true := by
    rw [trailingPhase_should_stop_loss]
    exact h1
  simp [exitDecision, hs]

/-- Witness for C1 at a concrete position breaching both stop and
target. -/
theorem check_position_stop_loss_priority_witness :
    (check_position true true 0 stC1 pC1).2 = some ExitReason.STOP_LOSS :=
  check_position_stop_loss_priority true true 0 stC1 pC1 (by decide) (by decide)

/-- Counterexample to C3 as stated: adding a position whose identifier
is already present does not fail — the existing entry is silently
replaced. -/
theorem add_position_duplicate_counterexample :
    (findPos "id1" stC3.positions).isSome = true ∧
    findPos "id1" (add_position stC3 pC3b).positions = some pC3b ∧
    pC3b ≠ pC3a := by
  refine ⟨rfl, rfl, ?_⟩
  intro h
  have := congrArg Position.entry_price h
  norm_num [pC3a, pC3b] at this

/-- Claim C3 (amended): add_position always succeeds — it stores the
position under its identifier, silently replacing any existing entry
with that identifier, and persists the set. -/
theorem add_position_insert_persist (st : ManagerState) (p : Position) :
    findPos p.position_id (add_position st p).positions = some p ∧
    (add_position st p).store = some (serializeMap (add_position st p).positions) := by
  constructor
  · simpa [add_position, save_positions] using
      findPos_dictInsert st.positions p.position_id p
  · simp [add_position, save_positions]

/-- Claim C4: when live trading is enabled and the gateway close call
fails, closing propagates the error and leaves the position set (and
the store) unchanged, so the position remains under monitoring. -/
theorem close_position_gateway_error_retains (now : ℕ) (st : ManagerState) (p : Position)
    (r : ExitReason) :
    (close_position true false now st p r).1 = Except.error "close order failed" ∧
    ((close_position true false now st p r).2).positions = st.positions ∧
    ((close_position true false now st p r).2).store = st.store :=
  ⟨rfl, rfl, rfl⟩

/-- Claim C8: with live execution disabled, closing makes no gateway
call, returns the position marked CLOSED with the given reason and
timestamp, removes it from the set, and leaves the same position set as
a successful live-mode close would. -/
theorem paper_close_no_gateway (g : Bool) (now : ℕ) (st : ManagerState) (p : Position)
    (r : ExitReason) :
    (close_position false g now st p r).1 =
      Except.ok { p with status := PositionStatus.CLOSED, exit_reason := some r,
                         closed_at := some now } ∧
    findPos p.position_id ((close_position false g now st p r).2).positions = none ∧
    ((close_position false g now st p r).2).gatewayCalls = st.gatewayCalls ∧
    ((close_position false g now st p r).2).positions =
      ((close_position true true now st p r).2).positions := by
  refine ⟨rfl, ?_, ?_, ?_⟩
  · exact remove_position_not_found _ p.position_id
  · simp [close_position, remove_position_gatewayCalls, writeBack]
  · simp [close_position, remove_position_positions, writeBack]

/-- Claim C10: when trading is disabled, the webhook endpoint answers
every alert with the paper-mode success response before routing to any
handler, leaving the manager state (position set and store) untouched
for every action, including the exit actions. -/
theorem webhook_disabled_no_mutation (env : EntryEnv) (g : Bool) (now maxPos : ℕ)
    (alert : TradingViewAlert) (st : ManagerState) :
    webhook false env g now maxPos alert st =
      (Except.ok { success := true, message := "Paper trade mode - no real execution" }, st) :=
  rfl

/-- Claim C7: for an identifier present in the set, manual close (with a
working close path) returns true and removes the position; a second
manual close on the same identifier returns false and leaves the state,
and in particular the set size, unchanged. -/
theorem manual_close_twice (et g : Bool) (now now2 : ℕ) (st : ManagerState)
    (pid : String) (p : Position)
    (hmem : findPos pid st.positions = some p)
    (hid : p.position_id = pid)
    (hok : et = false ∨ g = true) :
    (close_position_manual et g now st pid).1 = Except.ok true ∧
    (close_position_manual et g now2 (close_position_manual et g now st pid).2 pid).1 =
      Except.ok false ∧
    (close_position_manual et g now2 (close_position_manual et g now st pid).2 pid).2 =
      (close_position_manual et g now st pid).2 := by
  have hmain :
      (close_position et g now st p ExitReason.MANUAL).1 =
        Except.ok { p with status := PositionStatus.CLOSED,
                           exit_reason := some ExitReason.MANUAL, closed_at := some now } ∧
      findPos pid ((close_position et g now st p ExitReason.MANUAL).2).positions = none := by
    rcases hok with he | hg
    · subst he
      refine ⟨rfl, ?_⟩
      rw [← hid]
      exact remove_position_not_found _ p.position_id
    · subst hg
      cases et with
      | false =>
        refine ⟨rfl, ?_⟩
        rw [← hid]
        exact remove_position_not_found _ p.position_id
      | true =>
        refine ⟨rfl, ?_⟩
        rw [← hid]
        exact remove_position_not_found _ p.position_id
  have h1 : close_position_manual et g now st pid =
      (Except.ok true, (close_position et g now st p ExitReason.MANUAL).2) := by
    have hfst := hmain.1
    unfold close_position_manual
    simp only [hmem]
    rcases hE : close_position et g now st p ExitReason.MANUAL with ⟨e, st1⟩
    rw [hE] at hfst
    cases e with
    | ok q => rfl
    | error msg => exact absurd hfst (by simp)
  have h2 := hmain.2
  refine ⟨by rw [h1], ?_, ?_⟩
  · rw [h1]
    unfold close_position_manual
    rw [h2]
  · rw [h1]
    unfold close_position_manual
    rw [h2]

/-- Witness for C7 at a concrete one-position state in paper mode. -/
theorem manual_close_twice_witness :
    (close_position_manual false true 0 stC7 "q1").1 = Except.ok true ∧
    (close_position_manual false true 1 (close_position_manual false true 0 stC7 "q1").2 "q1").1 =
      Except.ok false ∧
    (close_position_manual false true 1 (close_position_manual false true 0 stC7 "q1").2 "q1").2 =
      (close_position_manual false true 0 stC7 "q1").2 :=
  manual_close_twice false true 0 1 stC7 "q1" pC7 rfl rfl (Or.inl rfl)

/-- Claim C6 (amended): saving a position set and reloading it restores
every serialized attribute exactly (timestamps modulo serialization) —
for positions whose closed timestamp and exit reason are unset, as is
the case for every member of the live set; those two attributes are not
serialized and load back as unset. -/
theorem save_load_roundtrip (st : ManagerState)
    (hopen : ∀ kv ∈ st.positions, kv.2.closed_at = none ∧ kv.2.exit_reason = none)
    (hnodup : (st.positions.map Prod.fst).Nodup) :
    load_positions (Except.ok (serializeMap st.positions)) = st.positions := by
  have h := loadRecords_serialize st.positions [] hopen (fun kv _ => rfl) hnodup
  simpa [load_positions] using h

/-- Witness for C6 at a concrete two-position set. -/
theorem save_load_roundtrip_witness :
    load_positions (Except.ok (serializeMap mC6)) = mC6 :=
  save_load_roundtrip { positions := mC6 } (by decide) (by decide)

/-- Counterexample to C6 as stated: a position carrying a close
timestamp and an exit reason does not survive the round trip — both
fields come back unset because the save path never serializes them. -/
theorem roundtrip_drops_exit_fields_counterexample :
    pC6ce.closed_at = some 7 ∧ pC6ce.exit_reason = some ExitReason.MANUAL ∧
    load_positions (Except.ok (serializeMap [("k", pC6ce)])) =
      [("k", { pC6ce with closed_at := none, exit_reason := none })] ∧
    ({ pC6ce with closed_at := none, exit_reason := none } : Position) ≠ pC6ce := by
  refine ⟨rfl, rfl, rfl, ?_⟩
  intro h
  have hca := congrArg Position.closed_at h
  simp [pC6ce] at hca

/-- Claim C9 (amended): a store that cannot be read or parsed loads as
the empty position set, and the loader always returns instead of
crashing; but on content that is invalid only part-way through the records parsed before the
first invalid one are retained, so the resulting set need not be empty. -/
theorem load_failure_behavior (e : String) (pre rest : List (String × PersistedRecord))
    (bad : String × PersistedRecord) (hbad : parseRecord bad.2 = none) :
    load_positions (Except.error e) = [] ∧
    load_positions (Except.ok (pre ++ bad :: rest)) = loadRecords [] pre :=
  ⟨rfl, loadRecords_stops_at_bad bad hbad pre rest []⟩

/-- Witness for C9: an unreadable store and a store whose second record
is invalid, at concrete inputs. -/
theorem load_failure_behavior_witness :
    load_positions (Except.error "unreadable") = [] ∧
    load_positions (Except.ok ([("a", serializePos pC9good)] ++ ("b", recC9bad) :: [])) =
      loadRecords [] [("a", serializePos pC9good)] :=
  load_failure_behavior "unreadable" [("a", serializePos pC9good)] []
    ("b", recC9bad) rfl

/-- Counterexample to C9 as stated: a store holding one valid record
followed by one invalid record loads to a one-element set, not the
empty set. -/
theorem load_bad_record_counterexample :
    parseRecord recC9bad = none ∧
    load_positions (Except.ok [("a", serializePos pC9good), ("b", recC9bad)]) =
      [("a", pC9good)] ∧
    ([("a", pC9good)] : PositionMap) ≠ [] := by
  refine ⟨rfl, rfl, ?_⟩
  simp

end Webhook
